import Mathlib

/-!
# Verification of the mxnet probability / random-sampling wrappers

Shallow embedding of the Python modules

* `python/mxnet/gluon/probability/distributions/normal.py` (class `Normal`),
* `python/mxnet/gluon/probability/transformation/transformation.py`
  (`Transformation`, `_InverseTransformation`, `ExpTransform`, `AffineTransform`),
* `python/mxnet/ndarray/numpy/random.py` (`multinomial`, `multivariate_normal`),

and proofs of the frozen claims about them.  Tensors are modelled elementwise
as real numbers; the backend primitives `F.np.exp`, `F.np.log`, `F.np.sqrt`
are the corresponding real functions, while the error-function primitives
`F.npx.erf` / `F.npx.erfinv` and the random generators, which the repository
only consumes, are abstract fields of a `Backend` record.  A Python call that
raises is modelled by an error constructor of `PyResult`; a method that can
both read attributes and (in principle) write them is modelled as a state
transformer returning its result together with the post-state of `self`.
-/

open Real MeasureTheory

noncomputable section

namespace MxModel

/-- Outcome of a Python call: a returned value or a raised exception.
Only the exception classes that appear in the modelled modules are listed. -/
inductive PyResult (α : Type) where
  | ok (val : α)
  | notImplementedError
  | valueError
  | typeError
  | attributeError

/-- The backend tensor API assumed by the wrappers (spec §6), restricted to the
members whose value the wrappers merely forward: the error-function pair
`F.npx.erf` / `F.npx.erfinv` and the two normal random generators
`F.np.random.normal` and `F.npx.random.normal_n`.  They are opaque
parameters here because the repository only calls them. -/
structure Backend where
  erf : ℝ → ℝ
  erfinv : ℝ → ℝ
  normalSample : ℝ → ℝ → Option (List ℕ) → ℝ
  normal_n : ℝ → ℝ → Option (List ℕ) → ℝ

/-- `F.np.broadcast_to(value, batch_shape)`: elementwise, broadcasting a value
to a batch shape replicates the value, so on the scalar model it returns the
value itself. -/
def np_broadcast_to (value : ℝ) (_batch_shape : List ℕ) : ℝ := value

/-- A `Normal` instance (normal.py).  Python attributes can be absent:
`__init__` (lines 44-48) sets `_loc` and `_scale`; `broadcast_to`
(lines 107-113) builds a raw instance via `__new__` and sets `loc` and
`scale` instead.  An absent attribute is `none`; reading it raises
`AttributeError`. -/
structure NormalObj where
  F : Backend
  _loc : Option ℝ
  _scale : Option ℝ
  loc : Option ℝ
  scale : Option ℝ

namespace Normal

/-- `Normal.__init__(loc, scale, F)` (normal.py lines 44-48): stores the
parameters in `_loc` and `_scale`. -/
def init (F : Backend) (loc scale : ℝ) : NormalObj :=
  { F := F, _loc := some loc, _scale := some scale, loc := none, scale := none }

/-- The arithmetic of `Normal.log_prob` (normal.py lines 50-68) on attribute
values: `-((value - loc)**2) / (2 * variance) - log(scale) - log(sqrt(2*pi))`
with `variance = scale ** 2` (line 136). -/
def log_prob_val (loc scale value : ℝ) : ℝ :=
  let log_scale := Real.log scale
  let lp1 := -((value - loc) ^ 2) / (2 * scale ^ 2)
  let lp2 := lp1 - log_scale
  lp2 - Real.log (Real.sqrt (2 * π))

/-- `Normal.log_prob(value)` (normal.py lines 50-68): reads `_loc` and
`_scale` (the latter both directly and through the `variance` property). -/
def log_prob (self : NormalObj) (value : ℝ) : PyResult ℝ × NormalObj :=
  match self._loc, self._scale with
  | some loc, some scale => (.ok (log_prob_val loc scale value), self)
  | _, _ => (.attributeError, self)

/-- `Normal.sample(size)` (normal.py lines 70-87): forwards `_loc`, `_scale`
and `size` to `F.np.random.normal`. -/
def sample (self : NormalObj) (size : Option (List ℕ)) : PyResult ℝ × NormalObj :=
  match self._loc, self._scale with
  | some loc, some scale => (.ok (self.F.normalSample loc scale size), self)
  | _, _ => (.attributeError, self)

/-- `Normal.sample_n(batch_size)` (normal.py lines 89-105): forwards `_loc`,
`_scale` and `batch_size` to `F.npx.random.normal_n`. -/
def sample_n (self : NormalObj) (batch_size : Option (List ℕ)) :
    PyResult ℝ × NormalObj :=
  match self._loc, self._scale with
  | some loc, some scale => (.ok (self.F.normal_n loc scale batch_size), self)
  | _, _ => (.attributeError, self)

/-- `Normal.broadcast_to(batch_shape)` (normal.py lines 107-113): creates a
raw instance with `__new__` and assigns the broadcast parameters to the
attributes `loc` and `scale` (not `_loc` / `_scale`), reading `self._loc`
and `self._scale`. -/
def broadcast_to (self : NormalObj) (batch_shape : List ℕ) :
    PyResult NormalObj × NormalObj :=
  match self._loc, self._scale with
  | some l, some s =>
      (.ok { F := self.F, _loc := none, _scale := none,
             loc := some (np_broadcast_to l batch_shape),
             scale := some (np_broadcast_to s batch_shape) }, self)
  | _, _ => (.attributeError, self)

/-- `Normal.support()` (normal.py lines 115-117): unconditionally
`raise NotImplementedError`. -/
def support (self : NormalObj) : PyResult Unit × NormalObj :=
  (.notImplementedError, self)

/-- The arithmetic of `Normal.cdf` (normal.py lines 119-124) on attribute
values: `0.5 * (1 + erf((value - loc) / (sqrt(2) * scale)))`. -/
def cdf_val (F : Backend) (loc scale value : ℝ) : ℝ :=
  let standarized_samples := (value - loc) / (Real.sqrt 2 * scale)
  let erf_term := F.erf standarized_samples
  0.5 * (1 + erf_term)

/-- `Normal.cdf(value)` (normal.py lines 119-124). -/
def cdf (self : NormalObj) (value : ℝ) : PyResult ℝ × NormalObj :=
  match self._loc, self._scale with
  | some loc, some scale => (.ok (cdf_val self.F loc scale value), self)
  | _, _ => (.attributeError, self)

/-- The arithmetic of `Normal.icdf` (normal.py lines 126-128) on attribute
values: `loc + scale * erfinv(2 * value - 1) * sqrt(2)`. -/
def icdf_val (F : Backend) (loc scale value : ℝ) : ℝ :=
  loc + scale * F.erfinv (2 * value - 1) * Real.sqrt 2

/-- `Normal.icdf(value)` (normal.py lines 126-128). -/
def icdf (self : NormalObj) (value : ℝ) : PyResult ℝ × NormalObj :=
  match self._loc, self._scale with
  | some loc, some scale => (.ok (icdf_val self.F loc scale value), self)
  | _, _ => (.attributeError, self)

/-- `Normal.mean` property (normal.py lines 130-132): returns `_loc`. -/
def mean (self : NormalObj) : PyResult ℝ × NormalObj :=
  match self._loc with
  | some loc => (.ok loc, self)
  | none => (.attributeError, self)

/-- `Normal.variance` property (normal.py lines 134-136): `_scale ** 2`. -/
def variance (self : NormalObj) : PyResult ℝ × NormalObj :=
  match self._scale with
  | some scale => (.ok (scale ^ 2), self)
  | none => (.attributeError, self)

/-- `Normal._natural_params` property (normal.py lines 138-149):
`(loc / scale**2, -0.5 * reciprocal(scale**2))`. -/
def natural_params (self : NormalObj) : PyResult (ℝ × ℝ) × NormalObj :=
  match self._loc, self._scale with
  | some loc, some scale =>
      (.ok (loc / scale ^ 2, -0.5 * (scale ^ 2)⁻¹), self)
  | _, _ => (.attributeError, self)

/-- Accessing the `Normal._log_normalizer` attribute (normal.py lines
151-168).  The getter is declared `def _log_normalizer(self, x, y)` under
`@property`, so the attribute access invokes it with `self` alone and Python
raises `TypeError` for the two missing required positional arguments `x` and
`y`; the body (which would also be ill-formed: `-0.25 * F.np.pow(2) / y`
omits `x`) is never reached. -/
def log_normalizer_access (self : NormalObj) : PyResult ℝ × NormalObj :=
  (.typeError, self)

end Normal

end MxModel

namespace MxModel

/-- A concrete backend used to instantiate witnesses. -/
def testBackend : Backend :=
  { erf := id, erfinv := id,
    normalSample := fun loc _ _ => loc, normal_n := fun loc _ _ => loc }

/-! ## transformation.py: object-identity model

For the claim about `t.inv.inv is t` (object identity through the cached weak
back-reference, transformation.py lines 28-36 and 66-68) the transformation
objects are modelled by reference: each object carries a numeric identity, and
equality of references models Python `is`.  The mutable `_inv` weakref cell of
each forward object lives in a store mapping a forward object's id to the id
of its currently live cached inverse (`none` models both "never created" and
"weakref target collected", the two cases in which `self._inv` / `self._inv()`
yields `None`). -/

/-- A reference to a transformation object: a forward transformation with
identity `fid`, or an `_InverseTransformation` with its own identity `iid`
whose `_inv` attribute holds the forward object `fid`
(transformation.py lines 62-64). -/
inductive TransRef where
  | forward (fid : ℕ)
  | inverse (iid : ℕ) (fid : ℕ)

/-- The mutable state the `inv` property touches: the `_inv` weakref cells of
the forward objects, and a fresh-identity counter for `__new__`. -/
structure TransStore where
  cache : ℕ → Option ℕ
  fresh : ℕ

/-- The `inv` property.  On a forward object (transformation.py lines 28-36):
dereference `self._inv`; if that yields a live inverse return it, otherwise
allocate a new `_InverseTransformation(self)` and store a weakref to it.  On
an `_InverseTransformation` (lines 66-68): return `self._inv`, the forward
object, unconditionally. -/
def TransRef.inv : TransRef → TransStore → TransRef × TransStore
  | .forward fid, σ =>
      match σ.cache fid with
      | some iid => (.inverse iid fid, σ)
      | none =>
          (.inverse σ.fresh fid,
           { cache := fun g => if g = fid then some σ.fresh else σ.cache g,
             fresh := σ.fresh + 1 })
  | .inverse _ fid, σ => (.forward fid, σ)

/-- A store is coherent for a reference when every live
`_InverseTransformation` is the one its forward object's weakref points to.
Python maintains this: `_InverseTransformation` objects are created only
inside `Transformation.inv`, which immediately stores `self._inv =
weakref.ref(inv)`, and while that inverse is alive the weakref keeps
returning it, so no second live inverse of the same forward can exist. -/
def TransRef.live : TransRef → TransStore → Prop
  | .forward _, _ => True
  | .inverse iid fid, σ => σ.cache fid = some iid

/-! ## transformation.py: semantic model

For the computational claims the concrete transformations are modelled by
their parameters; `_InverseTransformation` wraps a transformation. -/

/-- A transformation object as built by the module: `ExpTransform`
(transformation.py lines 77-89), `AffineTransform(loc, scale)` (lines
91-112), or the `_InverseTransformation` view of one (lines 57-74). -/
inductive TransSem where
  | expT
  | affineT (loc scale : ℝ)
  | inverseOf (t : TransSem)

/-- `ExpTransform._forward_compute(x) = F.np.exp(x)` (line 82-83). -/
def ExpTransform.forward_compute (x : ℝ) : ℝ := Real.exp x

/-- `ExpTransform._inverse_compute(y) = F.np.log(y)` (line 85-86). -/
def ExpTransform.inverse_compute (y : ℝ) : ℝ := Real.log y

/-- `AffineTransform._forward_compute(x) = loc + scale * x` (lines 101-102). -/
def AffineTransform.forward_compute (loc scale x : ℝ) : ℝ := loc + scale * x

/-- `AffineTransform._inverse_compute(y) = (y - loc) / scale` (lines 104-105). -/
def AffineTransform.inverse_compute (loc scale y : ℝ) : ℝ := (y - loc) / scale

/-- `log_det_jacobian(x, y)` of each object, elementwise on scalars:
`ExpTransform` returns `x` (lines 88-89); `AffineTransform` returns
`ones_like(x) * log(abs(scale))` (lines 107-112), and `ones_like` of a
scalar is `1`; `_InverseTransformation` returns
`-self._inv.log_det_jacobian(y, x)` (lines 73-74). -/
def TransSem.log_det_jacobian : TransSem → ℝ → ℝ → ℝ
  | .expT, x, _ => x
  | .affineT _ scale, _x, _ => 1 * Real.log |scale|
  | .inverseOf t, x, y => -(t.log_det_jacobian y x)

/-- The `inv` property on the semantic model: `Transformation.inv` wraps the
object in an `_InverseTransformation` (lines 28-36), while
`_InverseTransformation.inv` unwraps it (lines 66-68). -/
def TransSem.inv : TransSem → TransSem
  | .inverseOf t => t
  | .expT => .inverseOf .expT
  | .affineT loc scale => .inverseOf (.affineT loc scale)

/-! ## random.py: `multinomial` and `multivariate_normal` -/

/-- An element of a Python sequence passed as `pvals`: a float, or a nested
list (what `isinstance(i, list)` on line 244 detects). -/
inductive PvalsItem where
  | scalar (x : ℝ)
  | sublist (xs : List ℝ)

/-- The `pvals` argument of `multinomial`: an mxnet `NDArray`, an official
numpy `np.ndarray`, or a plain Python sequence. -/
inductive Pvals where
  | ndarray (data : List ℝ)
  | npndarray (data : List ℝ)
  | seq (items : List PvalsItem)

/-- A delegated backend call `_npi.multinomial(...)` (random.py lines 240 and
246), recording whether `pvals` was forwarded positionally as a tensor or as
the `pvals` keyword. -/
structure NpiMultinomialCall where
  tensor_pvals : Option (List ℝ)
  kw_pvals : Option (List PvalsItem)
  n : ℕ
  size : Option (List ℕ)

/-- `multinomial(n, pvals, size)` (random.py lines 197-246): an mxnet
`NDArray` is forwarded to the backend; otherwise an official numpy
`np.ndarray` raises `ValueError`, a sequence containing a nested list raises
`ValueError`, and any other sequence is forwarded. -/
def multinomial (n : ℕ) (pvals : Pvals) (size : Option (List ℕ)) :
    PyResult NpiMultinomialCall :=
  match pvals with
  | .ndarray data => .ok ⟨some data, none, n, size⟩
  | .npndarray _ => .valueError
  | .seq items =>
      if items.any (fun i => match i with | .sublist _ => true | .scalar _ => false)
      then .valueError
      else .ok ⟨none, some items, n, size⟩

/-- A delegated backend call `_npi.mvn_fallback(mean, cov, size)`
(random.py lines 327 and 553), elementwise on scalars. -/
structure MvnFallbackCall where
  mean : ℝ
  cov : ℝ
  size : Option (List ℕ)

/-- The first `def multivariate_normal` (random.py lines 249-327):
`check_valid is not None` and `tol is not None` each raise
`NotImplementedError`; otherwise the call is forwarded to
`_npi.mvn_fallback`.  The presence of `check_valid` / `tol` is all the code
tests, so they are modelled as `Option Unit`. -/
def multivariate_normal_v1 (mean cov : ℝ) (size : Option (List ℕ))
    (check_valid tol : Option Unit) : PyResult MvnFallbackCall :=
  if check_valid.isSome then .notImplementedError
  else if tol.isSome then .notImplementedError
  else .ok ⟨mean, cov, size⟩

/-- The second `def multivariate_normal` (random.py lines 552-553), with
signature `(mean, cov, size=None)`. -/
def multivariate_normal_v2 (mean cov : ℝ) (size : Option (List ℕ)) :
    PyResult MvnFallbackCall :=
  .ok ⟨mean, cov, size⟩

/-- Calling the module's `multivariate_normal` with the keyword arguments
`check_valid` / `tol`.  Python executes both `def multivariate_normal`
statements of random.py in order, so the second (lines 552-553) rebinds the
module attribute and is the function every call reaches; its signature has no
`check_valid` or `tol` parameter, so passing either keyword raises
`TypeError` (unexpected keyword argument) before the body runs. -/
def multivariate_normal_module_call (mean cov : ℝ) (size : Option (List ℕ))
    (check_valid tol : Option Unit) : PyResult MvnFallbackCall :=
  if check_valid.isSome || tol.isSome then .typeError
  else multivariate_normal_v2 mean cov size

/-! ## Theorems for the claims -/

/-- C3: for every transformation object `t` in a store coherent with it,
`t.inv.inv` is the original object `t` itself: a forward object's `inv`
yields an `_InverseTransformation` whose own `inv` returns the stored forward
reference, and an `_InverseTransformation`'s `inv` returns its forward
object, whose cached weak back-reference yields the live inverse again. -/
theorem transformation_inv_inv (t : TransRef) (σ : TransStore) (h : t.live σ) :
    ((t.inv σ).1.inv (t.inv σ).2).1 = t := by
  cases t with
  | forward fid =>
      rcases hc : σ.cache fid with _ | iid <;> simp [TransRef.inv, hc]
  | inverse iid fid =>
      simp only [TransRef.live] at h
      simp [TransRef.inv, h]

/-- Witness for C3: a fresh forward object in an empty store. -/
theorem transformation_inv_inv_witness :
    (((TransRef.forward 0).inv ⟨fun _ => none, 1⟩).1.inv
      (((TransRef.forward 0).inv ⟨fun _ => none, 1⟩)).2).1 = TransRef.forward 0 :=
  transformation_inv_inv (TransRef.forward 0) ⟨fun _ => none, 1⟩ trivial

/-- C10: for every transformation object, the log-determinant-Jacobian of its
inverse is the negation of the forward's with the arguments swapped. -/
theorem inv_log_det_jacobian_neg_swap (t : TransSem) (x y : ℝ) :
    (t.inv).log_det_jacobian x y = -(t.log_det_jacobian y x) := by
  cases t <;> simp [TransSem.inv, TransSem.log_det_jacobian]

/-- C7: `ExpTransform._inverse_compute` after `ExpTransform._forward_compute`
is the identity, and so is `AffineTransform._inverse_compute` after
`AffineTransform._forward_compute` whenever `scale ≠ 0`, in exact real
arithmetic. -/
theorem transforms_left_inverse (x loc scale : ℝ) (h : scale ≠ 0) :
    ExpTransform.inverse_compute (ExpTransform.forward_compute x) = x ∧
    AffineTransform.inverse_compute loc scale
      (AffineTransform.forward_compute loc scale x) = x := by
  constructor
  · exact Real.log_exp x
  · unfold AffineTransform.inverse_compute AffineTransform.forward_compute
    field_simp

/-- Witness for C7 at `x = 0`, `loc = 0`, `scale = 1`. -/
theorem transforms_left_inverse_witness :
    ExpTransform.inverse_compute (ExpTransform.forward_compute 0) = 0 ∧
    AffineTransform.inverse_compute 0 1 (AffineTransform.forward_compute 0 1 0) = 0 :=
  transforms_left_inverse 0 0 1 one_ne_zero

/-- C5: `multinomial` raises `ValueError` exactly when `pvals` is an official
numpy `np.ndarray` or a sequence containing a nested list; an mxnet `NDArray`
or a flat sequence of floats is delegated to the backend without raising. -/
theorem multinomial_valueError_iff (n : ℕ) (pvals : Pvals) (size : Option (List ℕ)) :
    multinomial n pvals size = .valueError ↔
      (∃ d, pvals = .npndarray d) ∨
      (∃ items, pvals = .seq items ∧ ∃ xs, PvalsItem.sublist xs ∈ items) := by
  cases pvals with
  | ndarray d => simp [multinomial]
  | npndarray d => simp [multinomial]
  | seq items =>
      simp only [multinomial]
      by_cases h : items.any
          (fun i => match i with | .sublist _ => true | .scalar _ => false) = true
      · simp only [h, if_true, true_iff]
        rw [List.any_eq_true] at h
        obtain ⟨i, hi, hmatch⟩ := h
        refine Or.inr ⟨items, rfl, ?_⟩
        cases i with
        | scalar x => exact absurd hmatch (by simp)
        | sublist xs => exact ⟨xs, hi⟩
      · simp only [h, if_false]
        constructor
        · intro hcontra
          exact PyResult.noConfusion hcontra
        · rintro (⟨d, hd⟩ | ⟨items2, hitems, xs, hmem⟩)
          · exact Pvals.noConfusion hd
          · cases hitems
            exact absurd (List.any_eq_true.mpr ⟨_, hmem, rfl⟩) h

/-- C6: `broadcast_to` on a `Normal` built by `__init__` leaves the receiver
unchanged and returns a distinct newly constructed instance, and none of the
other modelled `Normal` operations changes the receiver's state. -/
theorem normal_broadcast_to_fresh_no_mutation (B : Backend) (l s v : ℝ)
    (shape : List ℕ) (size batch_size : Option (List ℕ)) :
    (Normal.broadcast_to (Normal.init B l s) shape).2 = Normal.init B l s ∧
    (∃ m, (Normal.broadcast_to (Normal.init B l s) shape).1 = .ok m ∧
      m ≠ Normal.init B l s) ∧
    (Normal.log_prob (Normal.init B l s) v).2 = Normal.init B l s ∧
    (Normal.sample (Normal.init B l s) size).2 = Normal.init B l s ∧
    (Normal.sample_n (Normal.init B l s) batch_size).2 = Normal.init B l s ∧
    (Normal.cdf (Normal.init B l s) v).2 = Normal.init B l s ∧
    (Normal.icdf (Normal.init B l s) v).2 = Normal.init B l s ∧
    (Normal.mean (Normal.init B l s)).2 = Normal.init B l s ∧
    (Normal.variance (Normal.init B l s)).2 = Normal.init B l s ∧
    (Normal.support (Normal.init B l s)).2 = Normal.init B l s ∧
    (Normal.natural_params (Normal.init B l s)).2 = Normal.init B l s ∧
    (Normal.log_normalizer_access (Normal.init B l s)).2 = Normal.init B l s := by
  refine ⟨rfl, ⟨_, rfl, ?_⟩, rfl, rfl, rfl, rfl, rfl, rfl, rfl, rfl, rfl, rfl⟩
  intro hcontra
  have h2 := congrArg NormalObj._loc hcontra
  simp [Normal.init] at h2

/-- C9: every instance returned by `broadcast_to` raises `AttributeError`
from `mean`, `variance`, `log_prob`, `cdf`, `icdf` and `sample`, because
`broadcast_to` stores the broadcast parameters under `loc` / `scale` while
the methods read `_loc` / `_scale`. -/
theorem normal_broadcast_instance_attributeError (B : Backend) (l s v : ℝ)
    (shape : List ℕ) (size : Option (List ℕ)) :
    ∃ m, (Normal.broadcast_to (Normal.init B l s) shape).1 = .ok m ∧
      (Normal.mean m).1 = .attributeError ∧
      (Normal.variance m).1 = .attributeError ∧
      (Normal.log_prob m v).1 = .attributeError ∧
      (Normal.cdf m v).1 = .attributeError ∧
      (Normal.icdf m v).1 = .attributeError ∧
      (Normal.sample m size).1 = .attributeError :=
  ⟨_, rfl, rfl, rfl, rfl, rfl, rfl, rfl⟩

/-- C4 (amended): `Normal.support()` raises `NotImplementedError`; the first
`multivariate_normal` definition raises `NotImplementedError` when
`check_valid` or `tol` is not `None`, but the second definition of the same
name shadows it, so the module-level `multivariate_normal` called with either
keyword raises `TypeError` instead. -/
theorem notImplementedError_placeholders (B : Backend) (loc scale mean cov : ℝ)
    (size : Option (List ℕ)) (tol : Option Unit) :
    (Normal.support (Normal.init B loc scale)).1 = .notImplementedError ∧
    multivariate_normal_v1 mean cov size (some ()) tol = .notImplementedError ∧
    multivariate_normal_v1 mean cov size none (some ()) = .notImplementedError ∧
    multivariate_normal_module_call mean cov size (some ()) tol = .typeError ∧
    multivariate_normal_module_call mean cov size none (some ()) = .typeError :=
  ⟨rfl, rfl, rfl, rfl, rfl⟩

/-- Counterexample for C4 as stated: calling the module's
`multivariate_normal` with `check_valid` set raises `TypeError`, not
`NotImplementedError`. -/
theorem multivariate_normal_check_valid_not_notImplementedError :
    multivariate_normal_module_call 0 1 none (some ()) none = .typeError ∧
    multivariate_normal_module_call 0 1 none (some ()) none ≠ .notImplementedError := by
  refine ⟨rfl, ?_⟩
  intro hcontra
  exact PyResult.noConfusion hcontra

/-- C8 evidence: `_natural_params` on a constructed `Normal` returns exactly
the pair `(loc / scale^2, -0.5 / scale^2)`, while accessing
`_log_normalizer` raises `TypeError` by the property-getter arity mismatch. -/
theorem natural_params_formula_log_normalizer_typeError (B : Backend) (loc scale : ℝ) :
    (Normal.natural_params (Normal.init B loc scale)).1 =
      .ok (loc / scale ^ 2, -0.5 / scale ^ 2) ∧
    (Normal.log_normalizer_access (Normal.init B loc scale)).1 = .typeError := by
  constructor
  · simp [Normal.natural_params, Normal.init, div_eq_mul_inv]
  · rfl

/-- C2: for `scale > 0` and `0 < p < 1`, with the backend's `erf` and
`erfinv` mutually inverse on `(-1, 1)`, `Normal.cdf (Normal.icdf p) = p` in
exact real arithmetic. -/
theorem normal_cdf_icdf_roundtrip (B : Backend) (loc scale p : ℝ)
    (hs : 0 < scale) (hp0 : 0 < p) (hp1 : p < 1)
    (hinv : ∀ x, -1 < x → x < 1 → B.erf (B.erfinv x) = x) :
    (Normal.icdf (Normal.init B loc scale) p).1 =
      .ok (Normal.icdf_val B loc scale p) ∧
    (Normal.cdf (Normal.init B loc scale) (Normal.icdf_val B loc scale p)).1 =
      .ok p := by
  refine ⟨rfl, ?_⟩
  show PyResult.ok (Normal.cdf_val B loc scale (Normal.icdf_val B loc scale p)) = .ok p
  have hkey : Normal.cdf_val B loc scale (Normal.icdf_val B loc scale p) = p := by
    unfold Normal.cdf_val Normal.icdf_val
    have h2 : Real.sqrt 2 ≠ 0 := by positivity
    have harg : (loc + scale * B.erfinv (2 * p - 1) * Real.sqrt 2 - loc) /
        (Real.sqrt 2 * scale) = B.erfinv (2 * p - 1) := by
      field_simp
      ring
    rw [harg]
    show 0.5 * (1 + B.erf (B.erfinv (2 * p - 1))) = p
    rw [hinv (2 * p - 1) (by linarith) (by linarith)]
    ring
  rw [hkey]

/-- Witness for C2 with the identity pair as `erf` / `erfinv`, `loc = 0`,
`scale = 1`, `p = 1/2`. -/
theorem normal_cdf_icdf_roundtrip_witness :
    (Normal.cdf (Normal.init testBackend 0 1)
      (Normal.icdf_val testBackend 0 1 (1 / 2))).1 = .ok (1 / 2) :=
  (normal_cdf_icdf_roundtrip testBackend 0 1 (1 / 2) one_pos one_half_pos
    one_half_lt_one (fun _ _ _ => rfl)).2

/-- `exp` of the log-likelihood is the gaussian density with mean `loc` and
variance `scale^2`. -/
theorem exp_log_prob_val (loc scale : ℝ) (hs : 0 < scale) (x : ℝ) :
    Real.exp (Normal.log_prob_val loc scale x) =
      ProbabilityTheory.gaussianPDFReal loc ⟨scale ^ 2, sq_nonneg scale⟩ x := by
  unfold Normal.log_prob_val ProbabilityTheory.gaussianPDFReal
  have hsqrt : Real.sqrt (2 * π * scale ^ 2) = Real.sqrt (2 * π) * scale := by
    rw [Real.sqrt_mul (by positivity), Real.sqrt_sq hs.le]
  have h2pi : 0 < Real.sqrt (2 * π) := Real.sqrt_pos.mpr (by positivity)
  rw [sub_sub, Real.exp_sub, Real.exp_add, Real.exp_log hs, Real.exp_log h2pi]
  push_cast
  rw [hsqrt, neg_div]
  field_simp
  ring

/-- C1: `Normal.log_prob(value)` equals the closed-form Gaussian log-density
`-((value - loc)^2) / (2 * scale^2) - log(scale) - log(sqrt(2 * pi))`, and
for `scale > 0` the exponential of this log-density integrates to `1` over
the reals. -/
theorem normal_log_prob_closed_form_normalized (B : Backend) (loc scale value : ℝ)
    (hs : 0 < scale) :
    (Normal.log_prob (Normal.init B loc scale) value).1 =
      .ok (-((value - loc) ^ 2) / (2 * scale ^ 2) - Real.log scale -
        Real.log (Real.sqrt (2 * π))) ∧
    ∫ x : ℝ, Real.exp (Normal.log_prob_val loc scale x) = 1 := by
  refine ⟨rfl, ?_⟩
  have hv : (⟨scale ^ 2, sq_nonneg scale⟩ : NNReal) ≠ 0 := by
    intro hcontra
    exact absurd (congrArg Subtype.val hcontra) (by simpa using pow_ne_zero 2 hs.ne')
  calc ∫ x : ℝ, Real.exp (Normal.log_prob_val loc scale x)
      = ∫ x : ℝ, ProbabilityTheory.gaussianPDFReal loc ⟨scale ^ 2, sq_nonneg scale⟩ x := by
        refine integral_congr_ae (Filter.Eventually.of_forall ?_)
        exact exp_log_prob_val loc scale hs
    _ = 1 := ProbabilityTheory.integral_gaussianPDFReal_eq_one loc hv

/-- Witness for C1 at `loc = 0`, `scale = 1`, `value = 0`. -/
theorem normal_log_prob_closed_form_normalized_witness :
    (Normal.log_prob (Normal.init testBackend 0 1) 0).1 =
      .ok (-((0 - 0 : ℝ) ^ 2) / (2 * 1 ^ 2) - Real.log 1 -
        Real.log (Real.sqrt (2 * π))) ∧
    ∫ x : ℝ, Real.exp (Normal.log_prob_val 0 1 x) = 1 :=
  normal_log_prob_closed_form_normalized testBackend 0 1 0 one_pos

end MxModel

end
